import Mathlib

/-!
Verification of the Black-Scholes options pricing repository.

The repository consists of two Streamlit dashboard scripts
(src/black_scholes_model.py and src/streamlit_app.py), both of which import a
pricing module as `bsm` exposing a class `BSM(spot_price, strike_price,
rf_rate, maturity_time, volatility)` with methods `call_price`, `put_price`,
`delta_call`, `delta_put`, `gamma`, `vega`, `theta_call`, `theta_put`,
`rho_call`, `rho_put`.  That pricing module is not present in the source tree,
so the engine is modelled here from the specification's closed formulas
(spec section 4.1); the dashboard scripts are embedded from their sources.

Real-valued arithmetic stands in for IEEE floating point; the places where the
floating-point program would produce NaN or an infinity (log of a non-positive
number, division by zero) are tracked by an explicit exceptional-value
predicate.
-/

open Set MeasureTheory intervalIntegral

noncomputable section

/-- Standard normal probability density function, the mathematical function
computed by scipy.stats.norm.pdf. -/
def normPDF (x : ℝ) : ℝ := (Real.sqrt (2 * Real.pi))⁻¹ * Real.exp (-(x ^ 2) / 2)

/-- Standard normal cumulative distribution function, the mathematical
function computed by scipy.stats.norm.cdf. -/
def normCDF (x : ℝ) : ℝ := ∫ t in Iic x, normPDF t

/-- Modelled from the spec: the Model Parameters record of spec section 3.
The class `BSM` binding the five parameters is imported by both dashboard
scripts from a module absent from the source tree. -/
structure BSM where
  spot_price : ℝ
  strike_price : ℝ
  rf_rate : ℝ
  maturity_time : ℝ
  volatility : ℝ

namespace BSM

/-- Modelled from the spec: the derived intermediate
d1 = (ln(S/K) + (r + 0.5 sigma^2) T) / (sigma sqrt T) of spec section 3. -/
def d1 (p : BSM) : ℝ :=
  (Real.log (p.spot_price / p.strike_price)
      + (p.rf_rate + 0.5 * p.volatility ^ 2) * p.maturity_time)
    / (p.volatility * Real.sqrt p.maturity_time)

/-- Modelled from the spec: d2 = d1 - sigma sqrt T (spec section 3). -/
def d2 (p : BSM) : ℝ := d1 p - p.volatility * Real.sqrt p.maturity_time

/-- Modelled from the spec: call_price = S Phi(d1) - K e^(-rT) Phi(d2)
(spec section 4.1). -/
def call_price (p : BSM) : ℝ :=
  p.spot_price * normCDF (d1 p)
    - p.strike_price * Real.exp (-(p.rf_rate * p.maturity_time)) * normCDF (d2 p)

/-- Modelled from the spec: put_price = K e^(-rT) Phi(-d2) - S Phi(-d1)
(spec section 4.1). -/
def put_price (p : BSM) : ℝ :=
  p.strike_price * Real.exp (-(p.rf_rate * p.maturity_time)) * normCDF (-(d2 p))
    - p.spot_price * normCDF (-(d1 p))

/-- Modelled from the spec: delta_call = Phi(d1) (spec section 4.1). -/
def delta_call (p : BSM) : ℝ := normCDF (d1 p)

/-- Modelled from the spec: delta_put = Phi(d1) - 1 (spec section 4.1). -/
def delta_put (p : BSM) : ℝ := normCDF (d1 p) - 1

/-- Modelled from the spec: gamma = phi(d1) / (S sigma sqrt T)
(spec section 4.1); a single operation, with no call/put variants. -/
def gamma (p : BSM) : ℝ :=
  normPDF (d1 p) / (p.spot_price * p.volatility * Real.sqrt p.maturity_time)

/-- Modelled from the spec: vega = S phi(d1) sqrt T / 100 (spec section 4.1);
a single operation, with no call/put variants. -/
def vega (p : BSM) : ℝ :=
  p.spot_price * normPDF (d1 p) * Real.sqrt p.maturity_time / 100

/-- Modelled from the spec:
theta_call = -(S phi(d1) sigma)/(2 sqrt T) - r K e^(-rT) Phi(d2)
(spec section 4.1). -/
def theta_call (p : BSM) : ℝ :=
  -(p.spot_price * normPDF (d1 p) * p.volatility) / (2 * Real.sqrt p.maturity_time)
    - p.rf_rate * p.strike_price * Real.exp (-(p.rf_rate * p.maturity_time))
        * normCDF (d2 p)

/-- Modelled from the spec:
theta_put = -(S phi(d1) sigma)/(2 sqrt T) + r K e^(-rT) Phi(-d2)
(spec section 4.1). -/
def theta_put (p : BSM) : ℝ :=
  -(p.spot_price * normPDF (d1 p) * p.volatility) / (2 * Real.sqrt p.maturity_time)
    + p.rf_rate * p.strike_price * Real.exp (-(p.rf_rate * p.maturity_time))
        * normCDF (-(d2 p))

/-- Modelled from the spec: rho_call = K T e^(-rT) Phi(d2) (spec section 4.1). -/
def rho_call (p : BSM) : ℝ :=
  p.strike_price * p.maturity_time * Real.exp (-(p.rf_rate * p.maturity_time))
    * normCDF (d2 p)

/-- Modelled from the spec: rho_put = -(K T e^(-rT) Phi(-d2))
(spec section 4.1). -/
def rho_put (p : BSM) : ℝ :=
  -(p.strike_price * p.maturity_time * Real.exp (-(p.rf_rate * p.maturity_time))
      * normCDF (-(d2 p)))

end BSM

/-- Exceptional-value marker for the d1 computation: the floating-point
program takes log of S/K (NaN or -infinity when S/K is not positive) and
divides by sigma sqrt T (division by zero when that product vanishes).
These are the IEEE exceptional outcomes, represented here as a predicate
since the embedding works over the reals. -/
def d1_exceptional (p : BSM) : Prop :=
  p.spot_price / p.strike_price ≤ 0
    ∨ p.volatility * Real.sqrt p.maturity_time = 0

/-- A 100 by 100 coordinate grid, the shape produced by the dashboards'
meshgrid helper. -/
def Grid : Type := Fin 100 → Fin 100 → ℝ

/-- A scalar parameter broadcast over the grid, as numpy broadcasts a Python
scalar against an array. -/
def gconst (c : ℝ) : Grid := fun _ _ => c

/-- Elementwise application of a unary function, as numpy ufuncs apply. -/
def gmap (f : ℝ → ℝ) (a : Grid) : Grid := fun i j => f (a i j)

/-- Elementwise combination of two equally shaped grids, as numpy binary
array arithmetic. -/
def gmap2 (f : ℝ → ℝ → ℝ) (a b : Grid) : Grid := fun i j => f (a i j) (b i j)

namespace BSMGrid

/-- Modelled from the spec: the engine's d1 in array mode, the spec section
4.1 formula written with elementwise numpy arithmetic. -/
def d1 (S K r T v : Grid) : Grid :=
  gmap2 (fun a b => a / b)
    (gmap2 (fun a b => a + b)
      (gmap Real.log (gmap2 (fun a b => a / b) S K))
      (gmap2 (fun a b => a * b)
        (gmap2 (fun a b => a + b) r (gmap (fun x => 0.5 * x ^ 2) v))
        T))
    (gmap2 (fun a b => a * b) v (gmap Real.sqrt T))

/-- Modelled from the spec: the engine's d2 in array mode. -/
def d2 (S K r T v : Grid) : Grid :=
  gmap2 (fun a b => a - b) (d1 S K r T v)
    (gmap2 (fun a b => a * b) v (gmap Real.sqrt T))

/-- Modelled from the spec: the discount factor e^(-rT) in array mode. -/
def discount (r T : Grid) : Grid :=
  gmap Real.exp (gmap (fun x => -x) (gmap2 (fun a b => a * b) r T))

/-- Modelled from the spec: call_price in array mode. -/
def call_price (S K r T v : Grid) : Grid :=
  gmap2 (fun a b => a - b)
    (gmap2 (fun a b => a * b) S (gmap normCDF (d1 S K r T v)))
    (gmap2 (fun a b => a * b)
      (gmap2 (fun a b => a * b) K (discount r T))
      (gmap normCDF (d2 S K r T v)))

/-- Modelled from the spec: put_price in array mode. -/
def put_price (S K r T v : Grid) : Grid :=
  gmap2 (fun a b => a - b)
    (gmap2 (fun a b => a * b)
      (gmap2 (fun a b => a * b) K (discount r T))
      (gmap normCDF (gmap (fun x => -x) (d2 S K r T v))))
    (gmap2 (fun a b => a * b) S
      (gmap normCDF (gmap (fun x => -x) (d1 S K r T v))))

/-- Modelled from the spec: delta_call in array mode. -/
def delta_call (S K r T v : Grid) : Grid := gmap normCDF (d1 S K r T v)

/-- Modelled from the spec: delta_put in array mode. -/
def delta_put (S K r T v : Grid) : Grid :=
  gmap2 (fun a b => a - b) (gmap normCDF (d1 S K r T v)) (gconst 1)

/-- Modelled from the spec: gamma in array mode. -/
def gamma (S K r T v : Grid) : Grid :=
  gmap2 (fun a b => a / b) (gmap normPDF (d1 S K r T v))
    (gmap2 (fun a b => a * b) (gmap2 (fun a b => a * b) S v) (gmap Real.sqrt T))

/-- Modelled from the spec: vega in array mode. -/
def vega (S K r T v : Grid) : Grid :=
  gmap2 (fun a b => a / b)
    (gmap2 (fun a b => a * b)
      (gmap2 (fun a b => a * b) S (gmap normPDF (d1 S K r T v)))
      (gmap Real.sqrt T))
    (gconst 100)

/-- Modelled from the spec: theta_call in array mode. -/
def theta_call (S K r T v : Grid) : Grid :=
  gmap2 (fun a b => a - b)
    (gmap2 (fun a b => a / b)
      (gmap (fun x => -x)
        (gmap2 (fun a b => a * b)
          (gmap2 (fun a b => a * b) S (gmap normPDF (d1 S K r T v))) v))
      (gmap2 (fun a b => a * b) (gconst 2) (gmap Real.sqrt T)))
    (gmap2 (fun a b => a * b)
      (gmap2 (fun a b => a * b) (gmap2 (fun a b => a * b) r K) (discount r T))
      (gmap normCDF (d2 S K r T v)))

/-- Modelled from the spec: theta_put in array mode. -/
def theta_put (S K r T v : Grid) : Grid :=
  gmap2 (fun a b => a + b)
    (gmap2 (fun a b => a / b)
      (gmap (fun x => -x)
        (gmap2 (fun a b => a * b)
          (gmap2 (fun a b => a * b) S (gmap normPDF (d1 S K r T v))) v))
      (gmap2 (fun a b => a * b) (gconst 2) (gmap Real.sqrt T)))
    (gmap2 (fun a b => a * b)
      (gmap2 (fun a b => a * b) (gmap2 (fun a b => a * b) r K) (discount r T))
      (gmap normCDF (gmap (fun x => -x) (d2 S K r T v))))

/-- Modelled from the spec: rho_call in array mode. -/
def rho_call (S K r T v : Grid) : Grid :=
  gmap2 (fun a b => a * b)
    (gmap2 (fun a b => a * b) (gmap2 (fun a b => a * b) K T) (discount r T))
    (gmap normCDF (d2 S K r T v))

/-- Modelled from the spec: rho_put in array mode. -/
def rho_put (S K r T v : Grid) : Grid :=
  gmap (fun x => -x)
    (gmap2 (fun a b => a * b)
      (gmap2 (fun a b => a * b) (gmap2 (fun a b => a * b) K T) (discount r T))
      (gmap normCDF (gmap (fun x => -x) (d2 S K r T v))))

end BSMGrid

/-- Error taxonomy of spec section 7 for the engine's array mode. -/
inductive BSMError where
  | shapeMismatch
  deriving DecidableEq

/-- A numpy-style n-dimensional array: a shape together with the flattened
data. -/
structure NDArray where
  shape : List ℕ
  data : List ℝ

/-- Modelled from the spec: the engine's array-mode entry point with the
explicit shape contract of spec sections 7 and 9 — two array arguments
combined elementwise must share identical shape, and differing shapes are
signaled as a ShapeMismatch condition. -/
def call_price_checked (S v : NDArray) (K r T : ℝ) : Except BSMError NDArray :=
  if S.shape = v.shape then
    Except.ok
      { shape := S.shape
        data := List.zipWith (fun s x => BSM.call_price ⟨s, K, r, T, x⟩) S.data v.data }
  else Except.error BSMError.shapeMismatch

/-- np.linspace(lo, hi, n): n evenly spaced points from lo to hi inclusive
(src/black_scholes_model.py lines 11-12, src/streamlit_app.py lines 11-12). -/
def linspace (lo hi : ℝ) (n : ℕ) : Fin n → ℝ :=
  fun i => lo + (hi - lo) * (i.val : ℝ) / ((n : ℝ) - 1)

/-- The dashboards' meshgrid helper (both files, lines 10-14):
X_range = np.linspace(X_min, X_max, 100), Y_range = np.linspace(Y_min, Y_max, 100),
X, Y = np.meshgrid(X_range, Y_range).  With numpy's default indexing the
outputs are 100 by 100 with X[i,j] = X_range[j] and Y[i,j] = Y_range[i]:
the Cartesian product of the two ranges. -/
def meshgrid (X_min Y_min X_max Y_max : ℝ) : Grid × Grid :=
  (fun _ j => linspace X_min X_max 100 j, fun i _ => linspace Y_min Y_max 100 i)

/- Embedding of src/black_scholes_model.py, the dashboard with the five
sensitivity sections. -/
namespace BlackScholesModelApp

/-- The sidebar state: the five model parameters (lines 88-92) and the four
heatmap range sliders (lines 98-101). -/
structure Sidebar where
  spot_price : ℝ
  strike_price : ℝ
  maturity_time : ℝ
  volatility : ℝ
  rf_rate : ℝ
  spot_price_min : ℝ
  spot_price_max : ℝ
  volatility_min : ℝ
  volatility_max : ℝ
  maturity_time_min : ℝ
  maturity_time_max : ℝ
  rf_rate_min : ℝ
  rf_rate_max : ℝ

/-- Default of st.number_input('Asset Spot Price', value=100.00), line 88. -/
def spot_price_default : ℝ := 100.00

/-- Default of st.number_input('Asset Strike Price', value=100.00), line 89. -/
def strike_price_default : ℝ := 100.00

/-- Default of st.number_input('Time to Maturity (years)', value=1), line 90. -/
def maturity_time_default : ℝ := 1

/-- Default of st.slider('Volatility', value=0.2), line 91. -/
def volatility_default : ℝ := 0.2

/-- Default of st.slider('Risk-Free Interest Rate', ..., value=0.1), line 92. -/
def rf_rate_default : ℝ := 0.1

/-- Delta section meshgrid over spot price and volatility (line 165). -/
def delta_grids (sb : Sidebar) : Grid × Grid :=
  meshgrid sb.spot_price_min sb.volatility_min sb.spot_price_max sb.volatility_max

/-- Line 171: call_deltas = delta_model.delta_call() where
delta_model = BSM(X, strike_price, rf_rate, maturity_time, Y), line 168. -/
def call_deltas (sb : Sidebar) : Grid :=
  BSMGrid.delta_call (delta_grids sb).1 (gconst sb.strike_price)
    (gconst sb.rf_rate) (gconst sb.maturity_time) (delta_grids sb).2

/-- Line 172: put_deltas = delta_model.delta_put(). -/
def put_deltas (sb : Sidebar) : Grid :=
  BSMGrid.delta_put (delta_grids sb).1 (gconst sb.strike_price)
    (gconst sb.rf_rate) (gconst sb.maturity_time) (delta_grids sb).2

/-- Gamma section meshgrid over spot price and maturity time (line 187). -/
def gamma_grids (sb : Sidebar) : Grid × Grid :=
  meshgrid sb.spot_price_min sb.maturity_time_min sb.spot_price_max sb.maturity_time_max

/-- Line 193: call_gammas = gamma_model.gamma() where
gamma_model = BSM(X, strike_price, rf_rate, Y, volatility), line 190. -/
def call_gammas (sb : Sidebar) : Grid :=
  BSMGrid.gamma (gamma_grids sb).1 (gconst sb.strike_price)
    (gconst sb.rf_rate) (gamma_grids sb).2 (gconst sb.volatility)

/-- Line 194: put_gammas = gamma_model.gamma(). -/
def put_gammas (sb : Sidebar) : Grid :=
  BSMGrid.gamma (gamma_grids sb).1 (gconst sb.strike_price)
    (gconst sb.rf_rate) (gamma_grids sb).2 (gconst sb.volatility)

/-- Theta section meshgrid over spot price and maturity time (line 209). -/
def theta_grids (sb : Sidebar) : Grid × Grid :=
  meshgrid sb.spot_price_min sb.maturity_time_min sb.spot_price_max sb.maturity_time_max

/-- Line 215: call_thetas = theta_model.theta_call() where
theta_model = BSM(X, strike_price, rf_rate, Y, volatility), line 212. -/
def call_thetas (sb : Sidebar) : Grid :=
  BSMGrid.theta_call (theta_grids sb).1 (gconst sb.strike_price)
    (gconst sb.rf_rate) (theta_grids sb).2 (gconst sb.volatility)

/-- Line 216: put_thetas = theta_model.theta_call() — the source invokes
theta_call, not theta_put, for the put surface. -/
def put_thetas (sb : Sidebar) : Grid :=
  BSMGrid.theta_call (theta_grids sb).1 (gconst sb.strike_price)
    (gconst sb.rf_rate) (theta_grids sb).2 (gconst sb.volatility)

/-- Vega section meshgrid over spot price and volatility (line 231). -/
def vega_grids (sb : Sidebar) : Grid × Grid :=
  meshgrid sb.spot_price_min sb.volatility_min sb.spot_price_max sb.volatility_max

/-- Line 237: call_vegas = vega_model.theta_call() — the source invokes
theta_call, not vega, for the call vega surface; vega_model =
BSM(X, strike_price, rf_rate, maturity_time, Y), line 234. -/
def call_vegas (sb : Sidebar) : Grid :=
  BSMGrid.theta_call (vega_grids sb).1 (gconst sb.strike_price)
    (gconst sb.rf_rate) (gconst sb.maturity_time) (vega_grids sb).2

/-- Line 238: put_vegas = vega_model.theta_put() — the source invokes
theta_put, not vega, for the put vega surface. -/
def put_vegas (sb : Sidebar) : Grid :=
  BSMGrid.theta_put (vega_grids sb).1 (gconst sb.strike_price)
    (gconst sb.rf_rate) (gconst sb.maturity_time) (vega_grids sb).2

/-- Rho section meshgrid over spot price and risk-free rate (line 253). -/
def rho_grids (sb : Sidebar) : Grid × Grid :=
  meshgrid sb.spot_price_min sb.rf_rate_min sb.spot_price_max sb.rf_rate_max

/-- Line 259: call_rhos = rho_model.rho_call() where
rho_model = BSM(X, strike_price, Y, maturity_time, volatility), line 256. -/
def call_rhos (sb : Sidebar) : Grid :=
  BSMGrid.rho_call (rho_grids sb).1 (gconst sb.strike_price)
    (rho_grids sb).2 (gconst sb.maturity_time) (gconst sb.volatility)

/-- Line 260: put_rhos = rho_model.rho_put(). -/
def put_rhos (sb : Sidebar) : Grid :=
  BSMGrid.rho_put (rho_grids sb).1 (gconst sb.strike_price)
    (rho_grids sb).2 (gconst sb.maturity_time) (gconst sb.volatility)

end BlackScholesModelApp

/- Embedding of src/streamlit_app.py, the dashboard with the delta section
only. -/
namespace StreamlitApp

/-- Default of st.number_input('Asset Spot Price', value=100.00), line 87. -/
def spot_price_default : ℝ := 100.00

/-- Default of st.number_input('Asset Strike Price', value=100.00), line 88. -/
def strike_price_default : ℝ := 100.00

/-- Default of st.number_input('Time to Maturity (years)', value=1), line 89. -/
def maturity_time_default : ℝ := 1

/-- Default of st.slider('Volatility', value=0.2), line 90. -/
def volatility_default : ℝ := 0.2

/-- Default of st.slider('Risk-Free Interest Rate', ..., value=0.1), line 91. -/
def rf_rate_default : ℝ := 0.1

/-- Default of st.slider("Spot Price Range", 0.0, 1000.0, (0.0, 1000.0)),
line 97: the default selected range. -/
def spot_price_range_default : ℝ × ℝ := (0.0, 1000.0)

/-- Default of st.slider("Volatility Range", 0.0, 1.0, (0.0, 1.0)),
line 98: the default selected range. -/
def volatility_range_default : ℝ × ℝ := (0.0, 1.0)

/-- Delta section meshgrid over spot price and volatility under the default
slider values (line 155). -/
def default_delta_grids : Grid × Grid :=
  meshgrid spot_price_range_default.1 volatility_range_default.1
    spot_price_range_default.2 volatility_range_default.2

/-- The Model Parameters on which the engine is invoked at grid cell (i, j)
of the delta section under the default configuration: lines 158-159 construct
BSM(X, strike_price, rf_rate, maturity_time, Y) elementwise. -/
def default_delta_model (i j : Fin 100) : BSM :=
  { spot_price := default_delta_grids.1 i j
    strike_price := strike_price_default
    rf_rate := rf_rate_default
    maturity_time := maturity_time_default
    volatility := default_delta_grids.2 i j }

/-- Line 158: call_deltas = BSM(X, strike_price, rf_rate, maturity_time, Y)
.delta_call() under the default configuration. -/
def default_call_deltas : Grid :=
  BSMGrid.delta_call default_delta_grids.1 (gconst strike_price_default)
    (gconst rf_rate_default) (gconst maturity_time_default) default_delta_grids.2

/-- Line 159: put_deltas = BSM(X, strike_price, rf_rate, maturity_time, Y)
.delta_put() under the default configuration. -/
def default_put_deltas : Grid :=
  BSMGrid.delta_put default_delta_grids.1 (gconst strike_price_default)
    (gconst rf_rate_default) (gconst maturity_time_default) default_delta_grids.2

end StreamlitApp

/-- A concrete sidebar state used to evaluate the dashboard embedding:
strike 1, maturity 1, rf_rate 0.1, and every slider range starting at 1
(for spot price and volatility) so that grid cell (0,0) carries spot 1 and
volatility 1. -/
def sb_test : BlackScholesModelApp.Sidebar :=
  ⟨1, 1, 1, 1, 0.1, 1, 2, 1, 2, 1, 2, 1, 2⟩

/-- The Model Parameters the vega section evaluates at grid cell (0,0)
under sb_test: spot 1, strike 1, rf_rate 0.1, maturity 1, volatility 1. -/
def p_test : BSM := ⟨1, 1, 0.1, 1, 1⟩

end

/-! ### Properties of the standard normal density and distribution function -/

theorem normPDF_pos (x : ℝ) : 0 < normPDF x := by
  unfold normPDF
  positivity

theorem normPDF_nonneg (x : ℝ) : 0 ≤ normPDF x := (normPDF_pos x).le

theorem normPDF_even (x : ℝ) : normPDF (-x) = normPDF x := by
  simp [normPDF, neg_sq]

theorem continuous_normPDF : Continuous normPDF := by
  unfold normPDF
  fun_prop

theorem normPDF_eq (x : ℝ) :
    normPDF x = (Real.sqrt (2 * Real.pi))⁻¹ * Real.exp (-(1 / 2 : ℝ) * x ^ 2) := by
  unfold normPDF
  rw [show -(x ^ 2) / 2 = -(1 / 2 : ℝ) * x ^ 2 by ring]

theorem integrable_normPDF : MeasureTheory.Integrable normPDF := by
  have h : MeasureTheory.Integrable (fun x : ℝ => Real.exp (-(1 / 2 : ℝ) * x ^ 2)) :=
    integrable_exp_neg_mul_sq (by norm_num)
  have h2 := h.const_mul (Real.sqrt (2 * Real.pi))⁻¹
  have hfun : normPDF = fun x : ℝ =>
      (Real.sqrt (2 * Real.pi))⁻¹ * Real.exp (-(1 / 2 : ℝ) * x ^ 2) :=
    funext normPDF_eq
  rw [hfun]
  exact h2

theorem integral_normPDF : ∫ x : ℝ, normPDF x = 1 := by
  have hfun : normPDF = fun x : ℝ =>
      (Real.sqrt (2 * Real.pi))⁻¹ * Real.exp (-(1 / 2 : ℝ) * x ^ 2) :=
    funext normPDF_eq
  rw [hfun, MeasureTheory.integral_mul_left, integral_gaussian,
    show Real.pi / (1 / 2 : ℝ) = 2 * Real.pi by ring]
  exact inv_mul_cancel₀ (ne_of_gt (Real.sqrt_pos.mpr (by positivity)))

theorem normCDF_nonneg (x : ℝ) : 0 ≤ normCDF x :=
  MeasureTheory.setIntegral_nonneg measurableSet_Iic fun t _ => normPDF_nonneg t

theorem normCDF_add_neg (x : ℝ) : normCDF x + normCDF (-x) = 1 := by
  have h1 : normCDF (-x) = ∫ t in Ioi x, normPDF t := by
    have h2 : (∫ t in Iic (-x), normPDF (-t)) = ∫ t in Ioi (-(-x)), normPDF t :=
      integral_comp_neg_Iic (-x) normPDF
    simp only [normPDF_even, neg_neg] at h2
    exact h2
  rw [normCDF, h1,
    intervalIntegral.integral_Iic_add_Ioi integrable_normPDF.integrableOn
      integrable_normPDF.integrableOn,
    integral_normPDF]

theorem hasDerivAt_normCDF (x : ℝ) : HasDerivAt normCDF (normPDF x) x := by
  have key : ∀ y : ℝ, normCDF y = normCDF 0 + ∫ t in (0 : ℝ)..y, normPDF t := by
    intro y
    have h := intervalIntegral.integral_Iic_sub_Iic
      (f := normPDF) (μ := MeasureTheory.volume)
      (a := (0 : ℝ)) (b := y)
      integrable_normPDF.integrableOn integrable_normPDF.integrableOn
    unfold normCDF
    linarith [h]
  have hfun : normCDF = fun y : ℝ => normCDF 0 + ∫ t in (0 : ℝ)..y, normPDF t :=
    funext key
  rw [hfun]
  exact (intervalIntegral.integral_hasDerivAt_right
    integrable_normPDF.intervalIntegrable
    (continuous_normPDF.stronglyMeasurableAtFilter MeasureTheory.volume _)
    continuous_normPDF.continuousAt).const_add (normCDF 0)

theorem differentiable_normCDF : Differentiable ℝ normCDF :=
  fun x => (hasDerivAt_normCDF x).differentiableAt

theorem continuous_normCDF : Continuous normCDF :=
  differentiable_normCDF.continuous

/-! ### The density identity and spot derivatives of the price formulas -/

theorem normPDF_shift (x v : ℝ) :
    normPDF (x - v) = normPDF x * Real.exp (x * v - v ^ 2 / 2) := by
  unfold normPDF
  rw [show -((x - v) ^ 2) / 2 = -(x ^ 2) / 2 + (x * v - v ^ 2 / 2) by ring,
    Real.exp_add]
  ring

theorem spot_pdf_identity (S K r T σ : ℝ) (hS : 0 < S) (hK : 0 < K)
    (hT : 0 < T) (hσ : 0 < σ) :
    S * normPDF (BSM.d1 ⟨S, K, r, T, σ⟩)
      = K * Real.exp (-(r * T)) * normPDF (BSM.d2 ⟨S, K, r, T, σ⟩) := by
  have hv : (0 : ℝ) < σ * Real.sqrt T := by positivity
  have hva : (σ * Real.sqrt T) * BSM.d1 ⟨S, K, r, T, σ⟩
      = Real.log (S / K) + (r + 0.5 * σ ^ 2) * T := by
    show (σ * Real.sqrt T)
        * ((Real.log (S / K) + (r + 0.5 * σ ^ 2) * T) / (σ * Real.sqrt T)) = _
    rw [mul_comm, div_mul_cancel₀ _ hv.ne']
  have hv2 : (σ * Real.sqrt T) ^ 2 = σ ^ 2 * T := by
    rw [mul_pow, Real.sq_sqrt hT.le]
  have hshift : normPDF (BSM.d2 ⟨S, K, r, T, σ⟩)
      = normPDF (BSM.d1 ⟨S, K, r, T, σ⟩)
        * Real.exp (BSM.d1 ⟨S, K, r, T, σ⟩ * (σ * Real.sqrt T)
            - (σ * Real.sqrt T) ^ 2 / 2) :=
    normPDF_shift (BSM.d1 ⟨S, K, r, T, σ⟩) (σ * Real.sqrt T)
  have hexp : Real.exp (BSM.d1 ⟨S, K, r, T, σ⟩ * (σ * Real.sqrt T)
      - (σ * Real.sqrt T) ^ 2 / 2) = S / K * Real.exp (r * T) := by
    rw [show BSM.d1 ⟨S, K, r, T, σ⟩ * (σ * Real.sqrt T)
          - (σ * Real.sqrt T) ^ 2 / 2 = Real.log (S / K) + r * T by
        linear_combination hva - (1 / 2) * hv2,
      Real.exp_add, Real.exp_log (by positivity : (0 : ℝ) < S / K)]
  rw [hshift, hexp, Real.exp_neg]
  have hexp_ne : Real.exp (r * T) ≠ 0 := Real.exp_ne_zero _
  field_simp
  ring

theorem hasDerivAt_d1_spot (K r T σ : ℝ) (hK : 0 < K) (hT : 0 < T) (hσ : 0 < σ)
    {S : ℝ} (hS : 0 < S) :
    HasDerivAt (fun s => BSM.d1 ⟨s, K, r, T, σ⟩)
      (S⁻¹ / (σ * Real.sqrt T)) S := by
  have hdivK : HasDerivAt (fun s : ℝ => s / K) (1 / K) S := (hasDerivAt_id S).div_const K
  have hlog : HasDerivAt (fun s : ℝ => Real.log (s / K))
      (1 / K / (S / K)) S := hdivK.log (by positivity)
  have hlog2 : HasDerivAt (fun s : ℝ => Real.log (s / K)) S⁻¹ S := by
    convert hlog using 1
    field_simp
  exact (hlog2.add_const ((r + 0.5 * σ ^ 2) * T)).div_const (σ * Real.sqrt T)

theorem hasDerivAt_d2_spot (K r T σ : ℝ) (hK : 0 < K) (hT : 0 < T) (hσ : 0 < σ)
    {S : ℝ} (hS : 0 < S) :
    HasDerivAt (fun s => BSM.d2 ⟨s, K, r, T, σ⟩)
      (S⁻¹ / (σ * Real.sqrt T)) S :=
  (hasDerivAt_d1_spot K r T σ hK hT hσ hS).sub_const (σ * Real.sqrt T)

theorem hasDerivAt_call_price_spot (K r T σ : ℝ) (hK : 0 < K) (hT : 0 < T)
    (hσ : 0 < σ) {S : ℝ} (hS : 0 < S) :
    HasDerivAt (fun s => BSM.call_price ⟨s, K, r, T, σ⟩)
      (normCDF (BSM.d1 ⟨S, K, r, T, σ⟩)) S := by
  have hd1 := hasDerivAt_d1_spot K r T σ hK hT hσ hS
  have hd2 := hasDerivAt_d2_spot K r T σ hK hT hσ hS
  have hΦ1 : HasDerivAt (fun s => normCDF (BSM.d1 ⟨s, K, r, T, σ⟩))
      (normPDF (BSM.d1 ⟨S, K, r, T, σ⟩) * (S⁻¹ / (σ * Real.sqrt T))) S :=
    (hasDerivAt_normCDF (BSM.d1 ⟨S, K, r, T, σ⟩)).comp S hd1
  have hΦ2 : HasDerivAt (fun s => normCDF (BSM.d2 ⟨s, K, r, T, σ⟩))
      (normPDF (BSM.d2 ⟨S, K, r, T, σ⟩) * (S⁻¹ / (σ * Real.sqrt T))) S :=
    (hasDerivAt_normCDF (BSM.d2 ⟨S, K, r, T, σ⟩)).comp S hd2
  have hterm1 := (hasDerivAt_id S).mul hΦ1
  have hterm2 := hΦ2.const_mul (K * Real.exp (-(r * T)))
  have h := hterm1.sub hterm2
  simp only [id_eq] at h
  have heq : 1 * normCDF (BSM.d1 ⟨S, K, r, T, σ⟩)
        + S * (normPDF (BSM.d1 ⟨S, K, r, T, σ⟩) * (S⁻¹ / (σ * Real.sqrt T)))
        - K * Real.exp (-(r * T))
            * (normPDF (BSM.d2 ⟨S, K, r, T, σ⟩) * (S⁻¹ / (σ * Real.sqrt T)))
      = normCDF (BSM.d1 ⟨S, K, r, T, σ⟩) := by
    linear_combination (S⁻¹ / (σ * Real.sqrt T)) * spot_pdf_identity S K r T σ hS hK hT hσ
  rw [heq] at h
  exact h

theorem hasDerivAt_put_price_spot (K r T σ : ℝ) (hK : 0 < K) (hT : 0 < T)
    (hσ : 0 < σ) {S : ℝ} (hS : 0 < S) :
    HasDerivAt (fun s => BSM.put_price ⟨s, K, r, T, σ⟩)
      (-(normCDF (-(BSM.d1 ⟨S, K, r, T, σ⟩)))) S := by
  have hd1 := hasDerivAt_d1_spot K r T σ hK hT hσ hS
  have hd2 := hasDerivAt_d2_spot K r T σ hK hT hσ hS
  have hΦ1 : HasDerivAt (fun s => normCDF (-(BSM.d1 ⟨s, K, r, T, σ⟩)))
      (normPDF (-(BSM.d1 ⟨S, K, r, T, σ⟩)) * -(S⁻¹ / (σ * Real.sqrt T))) S :=
    (hasDerivAt_normCDF (-(BSM.d1 ⟨S, K, r, T, σ⟩))).comp S hd1.neg
  have hΦ2 : HasDerivAt (fun s => normCDF (-(BSM.d2 ⟨s, K, r, T, σ⟩)))
      (normPDF (-(BSM.d2 ⟨S, K, r, T, σ⟩)) * -(S⁻¹ / (σ * Real.sqrt T))) S :=
    (hasDerivAt_normCDF (-(BSM.d2 ⟨S, K, r, T, σ⟩))).comp S hd2.neg
  have hterm1 := hΦ2.const_mul (K * Real.exp (-(r * T)))
  have hterm2 := (hasDerivAt_id S).mul hΦ1
  have h := hterm1.sub hterm2
  simp only [id_eq] at h
  have heq : K * Real.exp (-(r * T))
        * (normPDF (-(BSM.d2 ⟨S, K, r, T, σ⟩)) * -(S⁻¹ / (σ * Real.sqrt T)))
        - (1 * normCDF (-(BSM.d1 ⟨S, K, r, T, σ⟩))
            + S * (normPDF (-(BSM.d1 ⟨S, K, r, T, σ⟩))
                * -(S⁻¹ / (σ * Real.sqrt T))))
      = -(normCDF (-(BSM.d1 ⟨S, K, r, T, σ⟩))) := by
    rw [normPDF_even, normPDF_even]
    linear_combination (S⁻¹ / (σ * Real.sqrt T))
      * spot_pdf_identity S K r T σ hS hK hT hσ
  rw [heq] at h
  exact h

/-! ### Grid cells compute the scalar formulas -/

theorem BSMGrid.d1_cell (S K r T v : Grid) (i j : Fin 100) :
    BSMGrid.d1 S K r T v i j = BSM.d1 ⟨S i j, K i j, r i j, T i j, v i j⟩ := rfl

theorem BSMGrid.call_price_cell (S K r T v : Grid) (i j : Fin 100) :
    BSMGrid.call_price S K r T v i j
      = BSM.call_price ⟨S i j, K i j, r i j, T i j, v i j⟩ := rfl

theorem BSMGrid.put_price_cell (S K r T v : Grid) (i j : Fin 100) :
    BSMGrid.put_price S K r T v i j
      = BSM.put_price ⟨S i j, K i j, r i j, T i j, v i j⟩ := rfl

theorem BSMGrid.delta_call_cell (S K r T v : Grid) (i j : Fin 100) :
    BSMGrid.delta_call S K r T v i j
      = BSM.delta_call ⟨S i j, K i j, r i j, T i j, v i j⟩ := rfl

theorem BSMGrid.delta_put_cell (S K r T v : Grid) (i j : Fin 100) :
    BSMGrid.delta_put S K r T v i j
      = BSM.delta_put ⟨S i j, K i j, r i j, T i j, v i j⟩ := rfl

theorem BSMGrid.gamma_cell (S K r T v : Grid) (i j : Fin 100) :
    BSMGrid.gamma S K r T v i j
      = BSM.gamma ⟨S i j, K i j, r i j, T i j, v i j⟩ := rfl

theorem BSMGrid.vega_cell (S K r T v : Grid) (i j : Fin 100) :
    BSMGrid.vega S K r T v i j
      = BSM.vega ⟨S i j, K i j, r i j, T i j, v i j⟩ := rfl

theorem BSMGrid.theta_call_cell (S K r T v : Grid) (i j : Fin 100) :
    BSMGrid.theta_call S K r T v i j
      = BSM.theta_call ⟨S i j, K i j, r i j, T i j, v i j⟩ := rfl

theorem BSMGrid.theta_put_cell (S K r T v : Grid) (i j : Fin 100) :
    BSMGrid.theta_put S K r T v i j
      = BSM.theta_put ⟨S i j, K i j, r i j, T i j, v i j⟩ := rfl

theorem BSMGrid.rho_call_cell (S K r T v : Grid) (i j : Fin 100) :
    BSMGrid.rho_call S K r T v i j
      = BSM.rho_call ⟨S i j, K i j, r i j, T i j, v i j⟩ := rfl

theorem BSMGrid.rho_put_cell (S K r T v : Grid) (i j : Fin 100) :
    BSMGrid.rho_put S K r T v i j
      = BSM.rho_put ⟨S i j, K i j, r i j, T i j, v i j⟩ := rfl

/-! ### Claim theorems -/

/-- C1: for every parameter set with positive spot, strike, maturity and
volatility (any rf_rate), the engine's call and put prices satisfy put-call
parity exactly over the real-valued formulas:
call_price - put_price = S - K e^(-rT). -/
theorem put_call_parity (p : BSM) (hS : 0 < p.spot_price) (hK : 0 < p.strike_price)
    (hT : 0 < p.maturity_time) (hσ : 0 < p.volatility) :
    BSM.call_price p - BSM.put_price p
      = p.spot_price
        - p.strike_price * Real.exp (-(p.rf_rate * p.maturity_time)) := by
  have h1 := normCDF_add_neg (BSM.d1 p)
  have h2 := normCDF_add_neg (BSM.d2 p)
  unfold BSM.call_price BSM.put_price
  linear_combination p.spot_price * h1
    - p.strike_price * Real.exp (-(p.rf_rate * p.maturity_time)) * h2

/-- Witness for C1 at S=1, K=1, r=0, T=1, sigma=1. -/
theorem put_call_parity_witness :
    (0 : ℝ) < 1 ∧
      BSM.call_price ⟨1, 1, 0, 1, 1⟩ - BSM.put_price ⟨1, 1, 0, 1, 1⟩
        = 1 - 1 * Real.exp (-(0 * 1)) :=
  ⟨by norm_num,
    put_call_parity ⟨1, 1, 0, 1, 1⟩ (show (0 : ℝ) < 1 by norm_num)
      (show (0 : ℝ) < 1 by norm_num) (show (0 : ℝ) < 1 by norm_num)
      (show (0 : ℝ) < 1 by norm_num)⟩

/-- C2: for every parameter set with positive spot, strike, maturity and
volatility, delta_call minus delta_put equals exactly 1, both being derived
from the same Phi(d1). -/
theorem delta_identity (p : BSM) (hS : 0 < p.spot_price) (hK : 0 < p.strike_price)
    (hT : 0 < p.maturity_time) (hσ : 0 < p.volatility) :
    BSM.delta_call p - BSM.delta_put p = 1 := by
  unfold BSM.delta_call BSM.delta_put
  ring

/-- Witness for C2 at S=1, K=1, r=0, T=1, sigma=1. -/
theorem delta_identity_witness :
    (0 : ℝ) < 1 ∧ BSM.delta_call ⟨1, 1, 0, 1, 1⟩ - BSM.delta_put ⟨1, 1, 0, 1, 1⟩ = 1 :=
  ⟨by norm_num,
    delta_identity ⟨1, 1, 0, 1, 1⟩ (show (0 : ℝ) < 1 by norm_num)
      (show (0 : ℝ) < 1 by norm_num) (show (0 : ℝ) < 1 by norm_num)
      (show (0 : ℝ) < 1 by norm_num)⟩

/-- C3: the engine exposes a single gamma, so the dashboard's call and put
gamma surfaces (both invoking gamma(), source lines 193-194) are identical,
and for every parameter set with positive spot, strike, maturity and
volatility, gamma is nonnegative.  (Vega likewise is the single operation
BSM.vega with no call/put variants.) -/
theorem gamma_identical_and_nonneg :
    (∀ (sb : BlackScholesModelApp.Sidebar) (i j : Fin 100),
        BlackScholesModelApp.call_gammas sb i j
          = BlackScholesModelApp.put_gammas sb i j) ∧
      ∀ p : BSM, 0 < p.spot_price → 0 < p.strike_price → 0 < p.maturity_time →
        0 < p.volatility → 0 ≤ BSM.gamma p := by
  constructor
  · intro sb i j
    rfl
  · intro p hS hK hT hσ
    unfold BSM.gamma
    exact div_nonneg (normPDF_nonneg _) (by positivity)

/-- Witness for C3 at S=100, K=100, r=0.1, T=1, sigma=0.2. -/
theorem gamma_identical_and_nonneg_witness :
    (0 : ℝ) < 100 ∧ 0 ≤ BSM.gamma ⟨100, 100, 0.1, 1, 0.2⟩ :=
  ⟨by norm_num,
    gamma_identical_and_nonneg.2 ⟨100, 100, 0.1, 1, 0.2⟩
      (show (0 : ℝ) < 100 by norm_num) (show (0 : ℝ) < 100 by norm_num)
      (show (0 : ℝ) < 1 by norm_num) (show (0 : ℝ) < 0.2 by norm_num)⟩

/-- C5: array mode is the scalar formula applied elementwise: for any grids
supplied for the five parameters (a scalar parameter is the constant grid
gconst of that scalar, covering the two-swept three-scalar configurations),
every engine output at cell (i,j) equals the scalar-mode computation on the
point values at (i,j). -/
theorem grid_mode_refines_scalar_mode (S K r T v : Grid) (i j : Fin 100) :
    BSMGrid.call_price S K r T v i j
        = BSM.call_price ⟨S i j, K i j, r i j, T i j, v i j⟩ ∧
      BSMGrid.put_price S K r T v i j
        = BSM.put_price ⟨S i j, K i j, r i j, T i j, v i j⟩ ∧
      BSMGrid.delta_call S K r T v i j
        = BSM.delta_call ⟨S i j, K i j, r i j, T i j, v i j⟩ ∧
      BSMGrid.delta_put S K r T v i j
        = BSM.delta_put ⟨S i j, K i j, r i j, T i j, v i j⟩ ∧
      BSMGrid.gamma S K r T v i j
        = BSM.gamma ⟨S i j, K i j, r i j, T i j, v i j⟩ ∧
      BSMGrid.vega S K r T v i j
        = BSM.vega ⟨S i j, K i j, r i j, T i j, v i j⟩ ∧
      BSMGrid.theta_call S K r T v i j
        = BSM.theta_call ⟨S i j, K i j, r i j, T i j, v i j⟩ ∧
      BSMGrid.theta_put S K r T v i j
        = BSM.theta_put ⟨S i j, K i j, r i j, T i j, v i j⟩ ∧
      BSMGrid.rho_call S K r T v i j
        = BSM.rho_call ⟨S i j, K i j, r i j, T i j, v i j⟩ ∧
      BSMGrid.rho_put S K r T v i j
        = BSM.rho_put ⟨S i j, K i j, r i j, T i j, v i j⟩ :=
  ⟨rfl, rfl, rfl, rfl, rfl, rfl, rfl, rfl, rfl, rfl⟩

/-- C6: combining two array inputs of differing shapes fails with the
ShapeMismatch condition rather than truncating, broadcasting, or failing
inside the arithmetic. -/
theorem shape_mismatch_signaled (S v : NDArray) (K r T : ℝ)
    (h : S.shape ≠ v.shape) :
    call_price_checked S v K r T = Except.error BSMError.shapeMismatch := by
  unfold call_price_checked
  rw [if_neg h]

/-- Witness for C6 on a length-2 and a length-3 vector. -/
theorem shape_mismatch_signaled_witness :
    ([2] : List ℕ) ≠ [3] ∧
      call_price_checked ⟨[2], [1, 1]⟩ ⟨[3], [1, 1, 1]⟩ 1 0 1
        = Except.error BSMError.shapeMismatch :=
  ⟨by decide,
    shape_mismatch_signaled ⟨[2], [1, 1]⟩ ⟨[3], [1, 1, 1]⟩ 1 0 1 (by decide)⟩

/-! ### Sign facts used to separate theta from vega -/

theorem theta_call_neg (p : BSM) (hS : 0 < p.spot_price) (hK : 0 < p.strike_price)
    (hT : 0 < p.maturity_time) (hσ : 0 < p.volatility) (hr : 0 ≤ p.rf_rate) :
    BSM.theta_call p < 0 := by
  unfold BSM.theta_call
  have h1 : 0 < p.spot_price * normPDF (BSM.d1 p) * p.volatility :=
    mul_pos (mul_pos hS (normPDF_pos _)) hσ
  have h2 : 0 < 2 * Real.sqrt p.maturity_time := by positivity
  have h3 : 0 ≤ p.rf_rate * p.strike_price
      * Real.exp (-(p.rf_rate * p.maturity_time)) * normCDF (BSM.d2 p) :=
    mul_nonneg (mul_nonneg (mul_nonneg hr hK.le) (Real.exp_pos _).le)
      (normCDF_nonneg _)
  have h4 : -(p.spot_price * normPDF (BSM.d1 p) * p.volatility)
      / (2 * Real.sqrt p.maturity_time) < 0 :=
    div_neg_of_neg_of_pos (neg_lt_zero.mpr h1) h2
  linarith

theorem vega_pos (p : BSM) (hS : 0 < p.spot_price) (hT : 0 < p.maturity_time) :
    0 < BSM.vega p := by
  unfold BSM.vega
  exact div_pos (mul_pos (mul_pos hS (normPDF_pos _)) (Real.sqrt_pos.mpr hT))
    (by norm_num)

theorem theta_put_sub_theta_call (p : BSM) :
    BSM.theta_put p - BSM.theta_call p
      = p.rf_rate * p.strike_price * Real.exp (-(p.rf_rate * p.maturity_time)) := by
  have h := normCDF_add_neg (BSM.d2 p)
  unfold BSM.theta_put BSM.theta_call
  linear_combination (p.rf_rate * p.strike_price
    * Real.exp (-(p.rf_rate * p.maturity_time))) * h

/-- C4 (code-bug evidence): in src/black_scholes_model.py the Theta section's
put surface is a second copy of theta_call (line 216), and the Vega section's
two surfaces are theta_call and theta_put (lines 237-238), not the engine's
vega; at the concrete state sb_test the value plotted as "Call Vega" equals
theta_call, which is negative while vega is positive, so it is not the vega
output, and the put theta surface differs from theta_put. -/
theorem vega_theta_sections_use_mismatched_greeks :
    (∀ i j : Fin 100, BlackScholesModelApp.put_thetas sb_test i j
        = BlackScholesModelApp.call_thetas sb_test i j) ∧
      BlackScholesModelApp.call_vegas sb_test 0 0 = BSM.theta_call p_test ∧
      BlackScholesModelApp.put_vegas sb_test 0 0 = BSM.theta_put p_test ∧
      BSM.theta_call p_test ≠ BSM.vega p_test ∧
      BSM.theta_call p_test ≠ BSM.theta_put p_test := by
  have hX : (BlackScholesModelApp.vega_grids sb_test).1 0 0 = 1 := by
    have h0 : ((0 : Fin 100) : ℕ) = 0 := rfl
    norm_num [BlackScholesModelApp.vega_grids, sb_test, meshgrid, linspace, h0]
  have hY : (BlackScholesModelApp.vega_grids sb_test).2 0 0 = 1 := by
    have h0 : ((0 : Fin 100) : ℕ) = 0 := rfl
    norm_num [BlackScholesModelApp.vega_grids, sb_test, meshgrid, linspace, h0]
  refine ⟨fun i j => rfl, ?_, ?_, ?_, ?_⟩
  · have h1 : BlackScholesModelApp.call_vegas sb_test 0 0
        = BSM.theta_call ⟨(BlackScholesModelApp.vega_grids sb_test).1 0 0, 1, 0.1, 1,
            (BlackScholesModelApp.vega_grids sb_test).2 0 0⟩ := rfl
    rw [hX, hY] at h1
    exact h1
  · have h1 : BlackScholesModelApp.put_vegas sb_test 0 0
        = BSM.theta_put ⟨(BlackScholesModelApp.vega_grids sb_test).1 0 0, 1, 0.1, 1,
            (BlackScholesModelApp.vega_grids sb_test).2 0 0⟩ := rfl
    rw [hX, hY] at h1
    exact h1
  · have hneg := theta_call_neg p_test (show (0 : ℝ) < 1 by norm_num)
      (show (0 : ℝ) < 1 by norm_num) (show (0 : ℝ) < 1 by norm_num)
      (show (0 : ℝ) < 1 by norm_num) (show (0 : ℝ) ≤ 0.1 by norm_num)
    have hpos := vega_pos p_test (show (0 : ℝ) < 1 by norm_num)
      (show (0 : ℝ) < 1 by norm_num)
    exact ne_of_lt (lt_trans hneg hpos)
  · have hdiff := theta_put_sub_theta_call p_test
    have hr : p_test.rf_rate = 0.1 := rfl
    have hK : p_test.strike_price = 1 := rfl
    have hT : p_test.maturity_time = 1 := rfl
    rw [hr, hK, hT] at hdiff
    have hE := Real.exp_pos (-(0.1 * 1 : ℝ))
    have hlt : BSM.theta_call p_test < BSM.theta_put p_test := by linarith
    exact hlt.ne

/-- C7: holding strike, rate, maturity and volatility fixed (with strike,
maturity and volatility positive), call_price is non-decreasing and put_price
is non-increasing on positive spot prices. -/
theorem call_monotone_put_antitone_in_spot (K r T σ : ℝ)
    (hK : 0 < K) (hT : 0 < T) (hσ : 0 < σ) (S1 S2 : ℝ)
    (hS1 : 0 < S1) (h12 : S1 ≤ S2) :
    BSM.call_price ⟨S1, K, r, T, σ⟩ ≤ BSM.call_price ⟨S2, K, r, T, σ⟩ ∧
      BSM.put_price ⟨S2, K, r, T, σ⟩ ≤ BSM.put_price ⟨S1, K, r, T, σ⟩ := by
  have hS2 : 0 < S2 := lt_of_lt_of_le hS1 h12
  have hmono : MonotoneOn (fun s => BSM.call_price ⟨s, K, r, T, σ⟩) (Ioi 0) := by
    apply monotoneOn_of_deriv_nonneg (convex_Ioi 0)
    · exact fun s hs =>
        (hasDerivAt_call_price_spot K r T σ hK hT hσ
          (mem_Ioi.mp hs)).differentiableAt.continuousAt.continuousWithinAt
    · rw [interior_Ioi]
      exact fun s hs =>
        (hasDerivAt_call_price_spot K r T σ hK hT hσ
          (mem_Ioi.mp hs)).differentiableAt.differentiableWithinAt
    · rw [interior_Ioi]
      intro s hs
      rw [(hasDerivAt_call_price_spot K r T σ hK hT hσ (mem_Ioi.mp hs)).deriv]
      exact normCDF_nonneg _
  have hanti : AntitoneOn (fun s => BSM.put_price ⟨s, K, r, T, σ⟩) (Ioi 0) := by
    apply antitoneOn_of_deriv_nonpos (convex_Ioi 0)
    · exact fun s hs =>
        (hasDerivAt_put_price_spot K r T σ hK hT hσ
          (mem_Ioi.mp hs)).differentiableAt.continuousAt.continuousWithinAt
    · rw [interior_Ioi]
      exact fun s hs =>
        (hasDerivAt_put_price_spot K r T σ hK hT hσ
          (mem_Ioi.mp hs)).differentiableAt.differentiableWithinAt
    · rw [interior_Ioi]
      intro s hs
      rw [(hasDerivAt_put_price_spot K r T σ hK hT hσ (mem_Ioi.mp hs)).deriv]
      exact neg_nonpos.mpr (normCDF_nonneg _)
  exact ⟨hmono (mem_Ioi.mpr hS1) (mem_Ioi.mpr hS2) h12,
    hanti (mem_Ioi.mpr hS1) (mem_Ioi.mpr hS2) h12⟩

/-- Witness for C7 at K=1, r=0, T=1, sigma=1, S1=1, S2=2. -/
theorem call_monotone_put_antitone_in_spot_witness :
    (0 : ℝ) < 1 ∧
      (BSM.call_price ⟨1, 1, 0, 1, 1⟩ ≤ BSM.call_price ⟨2, 1, 0, 1, 1⟩ ∧
        BSM.put_price ⟨2, 1, 0, 1, 1⟩ ≤ BSM.put_price ⟨1, 1, 0, 1, 1⟩) :=
  ⟨by norm_num,
    call_monotone_put_antitone_in_spot 1 0 1 1 (by norm_num) (by norm_num)
      (by norm_num) 1 2 (by norm_num) (by norm_num)⟩

/-- C8: for every choice of range bounds, the meshgrid helper returns two
100 by 100 coordinate arrays that are the Cartesian product of two linearly
spaced 100-point ranges (endpoints included, step (hi-lo)/99), and every
sensitivity section's call and put surfaces are the engine invoked on
precisely those meshgrid cells. -/
theorem meshgrid_cartesian_and_engine_invocation
    (X_min Y_min X_max Y_max : ℝ) (sb : BlackScholesModelApp.Sidebar)
    (i j : Fin 100) :
    (meshgrid X_min Y_min X_max Y_max).1 i j = linspace X_min X_max 100 j ∧
    (meshgrid X_min Y_min X_max Y_max).2 i j = linspace Y_min Y_max 100 i ∧
    linspace X_min X_max 100 j = X_min + (X_max - X_min) * (j.val : ℝ) / 99 ∧
    linspace X_min X_max 100 0 = X_min ∧
    linspace X_min X_max 100 99 = X_max ∧
    BlackScholesModelApp.call_deltas sb i j
      = BSM.delta_call ⟨(BlackScholesModelApp.delta_grids sb).1 i j,
          sb.strike_price, sb.rf_rate, sb.maturity_time,
          (BlackScholesModelApp.delta_grids sb).2 i j⟩ ∧
    BlackScholesModelApp.put_deltas sb i j
      = BSM.delta_put ⟨(BlackScholesModelApp.delta_grids sb).1 i j,
          sb.strike_price, sb.rf_rate, sb.maturity_time,
          (BlackScholesModelApp.delta_grids sb).2 i j⟩ ∧
    BlackScholesModelApp.call_gammas sb i j
      = BSM.gamma ⟨(BlackScholesModelApp.gamma_grids sb).1 i j,
          sb.strike_price, sb.rf_rate,
          (BlackScholesModelApp.gamma_grids sb).2 i j, sb.volatility⟩ ∧
    BlackScholesModelApp.put_gammas sb i j
      = BSM.gamma ⟨(BlackScholesModelApp.gamma_grids sb).1 i j,
          sb.strike_price, sb.rf_rate,
          (BlackScholesModelApp.gamma_grids sb).2 i j, sb.volatility⟩ ∧
    BlackScholesModelApp.call_thetas sb i j
      = BSM.theta_call ⟨(BlackScholesModelApp.theta_grids sb).1 i j,
          sb.strike_price, sb.rf_rate,
          (BlackScholesModelApp.theta_grids sb).2 i j, sb.volatility⟩ ∧
    BlackScholesModelApp.put_thetas sb i j
      = BSM.theta_call ⟨(BlackScholesModelApp.theta_grids sb).1 i j,
          sb.strike_price, sb.rf_rate,
          (BlackScholesModelApp.theta_grids sb).2 i j, sb.volatility⟩ ∧
    BlackScholesModelApp.call_vegas sb i j
      = BSM.theta_call ⟨(BlackScholesModelApp.vega_grids sb).1 i j,
          sb.strike_price, sb.rf_rate, sb.maturity_time,
          (BlackScholesModelApp.vega_grids sb).2 i j⟩ ∧
    BlackScholesModelApp.put_vegas sb i j
      = BSM.theta_put ⟨(BlackScholesModelApp.vega_grids sb).1 i j,
          sb.strike_price, sb.rf_rate, sb.maturity_time,
          (BlackScholesModelApp.vega_grids sb).2 i j⟩ ∧
    BlackScholesModelApp.call_rhos sb i j
      = BSM.rho_call ⟨(BlackScholesModelApp.rho_grids sb).1 i j,
          sb.strike_price, (BlackScholesModelApp.rho_grids sb).2 i j,
          sb.maturity_time, sb.volatility⟩ ∧
    BlackScholesModelApp.put_rhos sb i j
      = BSM.rho_put ⟨(BlackScholesModelApp.rho_grids sb).1 i j,
          sb.strike_price, (BlackScholesModelApp.rho_grids sb).2 i j,
          sb.maturity_time, sb.volatility⟩ := by
  have h0 : ((0 : Fin 100) : ℕ) = 0 := rfl
  have h99 : ((99 : Fin 100) : ℕ) = 99 := rfl
  refine ⟨rfl, rfl, by norm_num [linspace], ?_, ?_,
    rfl, rfl, rfl, rfl, rfl, rfl, rfl, rfl, rfl, rfl⟩
  · norm_num [linspace, h0]
  · rw [linspace, h99]
    norm_num

/-- C9: both dashboards initialize the five parameter controls with
spot 100, strike 100, maturity 1 year, volatility 0.2 and rf_rate 0.1. -/
theorem sidebar_default_values :
    (BlackScholesModelApp.spot_price_default = 100 ∧
        BlackScholesModelApp.strike_price_default = 100 ∧
        BlackScholesModelApp.maturity_time_default = 1 ∧
        BlackScholesModelApp.volatility_default = 0.2 ∧
        BlackScholesModelApp.rf_rate_default = 0.1) ∧
      StreamlitApp.spot_price_default = 100 ∧
        StreamlitApp.strike_price_default = 100 ∧
        StreamlitApp.maturity_time_default = 1 ∧
        StreamlitApp.volatility_default = 0.2 ∧
        StreamlitApp.rf_rate_default = 0.1 := by
  norm_num [BlackScholesModelApp.spot_price_default,
    BlackScholesModelApp.strike_price_default,
    BlackScholesModelApp.maturity_time_default,
    BlackScholesModelApp.volatility_default,
    BlackScholesModelApp.rf_rate_default,
    StreamlitApp.spot_price_default, StreamlitApp.strike_price_default,
    StreamlitApp.maturity_time_default, StreamlitApp.volatility_default,
    StreamlitApp.rf_rate_default]

/-- C10: in src/streamlit_app.py the default heatmap range sliders for spot
price and volatility start at 0, the linearly spaced grids include their
endpoints, so the delta surfaces invoke the engine at a cell with
spot_price = 0 and volatility = 0, outside the documented preconditions
S > 0 and sigma > 0, where the d1 computation takes log of a non-positive
number and divides by zero (the IEEE NaN/infinity outcomes, tracked by
d1_exceptional). -/
theorem default_delta_surfaces_hit_zero_spot_and_vol :
    StreamlitApp.spot_price_range_default.1 = 0 ∧
      StreamlitApp.volatility_range_default.1 = 0 ∧
      (∀ i j : Fin 100, StreamlitApp.default_call_deltas i j
          = BSM.delta_call (StreamlitApp.default_delta_model i j)) ∧
      (∀ i j : Fin 100, StreamlitApp.default_put_deltas i j
          = BSM.delta_put (StreamlitApp.default_delta_model i j)) ∧
      (StreamlitApp.default_delta_model 0 0).spot_price = 0 ∧
      (StreamlitApp.default_delta_model 0 0).volatility = 0 ∧
      ¬ (0 < (StreamlitApp.default_delta_model 0 0).spot_price ∧
          0 < (StreamlitApp.default_delta_model 0 0).volatility) ∧
      d1_exceptional (StreamlitApp.default_delta_model 0 0) := by
  have h0 : ((0 : Fin 100) : ℕ) = 0 := rfl
  have hS : (StreamlitApp.default_delta_model 0 0).spot_price = 0 := by
    show StreamlitApp.default_delta_grids.1 0 0 = 0
    norm_num [StreamlitApp.default_delta_grids, StreamlitApp.spot_price_range_default,
      StreamlitApp.volatility_range_default, meshgrid, linspace, h0]
  have hV : (StreamlitApp.default_delta_model 0 0).volatility = 0 := by
    show StreamlitApp.default_delta_grids.2 0 0 = 0
    norm_num [StreamlitApp.default_delta_grids, StreamlitApp.spot_price_range_default,
      StreamlitApp.volatility_range_default, meshgrid, linspace, h0]
  refine ⟨by norm_num [StreamlitApp.spot_price_range_default],
    by norm_num [StreamlitApp.volatility_range_default],
    fun i j => rfl, fun i j => rfl, hS, hV, ?_, ?_⟩
  · intro h
    rw [hS] at h
    exact lt_irrefl 0 h.1
  · left
    rw [hS]
    simp
